import Mathlib

/-!
Verification of the omni-voice provider abstraction layer
(`hooks/use-omni-chat.ts`, `lib/ai/omni-voice.ts`).

The TypeScript source is shallowly embedded: React state updates become
explicit state-passing functions, provider event listeners become step
functions on the session state, and the asynchronous bodies of
`startCall`/`endCall` are modelled as atomic functions parameterised by the
outcome of their network suspensions (the single-threaded, event-driven
scheduling model of the source).  JavaScript string primitives
(`trim`, `toUpperCase`, `toLowerCase`, `includes`) are embedded as
character-list functions so that everything evaluates in the kernel.
-/

namespace OmniVoice

/-- Embedding of JavaScript `String.prototype.toUpperCase` restricted to the
basic latin range, as a structural map over the character list. -/
def jsToUpperCase (s : String) : String :=
  ⟨s.data.map Char.toUpper⟩

/-- Embedding of JavaScript `String.prototype.toLowerCase` restricted to the
basic latin range, as a structural map over the character list. -/
def jsToLowerCase (s : String) : String :=
  ⟨s.data.map Char.toLower⟩

/-- Embedding of JavaScript `String.prototype.trim`: drop whitespace from
both ends of the character list. -/
def jsTrim (s : String) : String :=
  ⟨((s.data.dropWhile Char.isWhitespace).reverse.dropWhile Char.isWhitespace).reverse⟩

/-- Leading-segment comparison of two lists, used to embed substring search. -/
def listLeadEq : List Char → List Char → Bool
  | [], _ => true
  | _ :: _, [] => false
  | a :: as, b :: bs => a == b && listLeadEq as bs

/-- Occurrence of `pat` inside `l` at some offset. -/
def listOccurs (pat : List Char) : List Char → Bool
  | [] => pat.isEmpty
  | b :: bs => listLeadEq pat (b :: bs) || listOccurs pat bs

/-- Embedding of JavaScript `String.prototype.includes`. -/
def jsIncludes (s pat : String) : Bool :=
  listOccurs pat.data s.data

/-- Canonical status enumeration of the spec (section 4.3). -/
def canonicalStatuses : List String :=
  ["disconnected", "connecting", "connected", "listening", "thinking", "speaking", "error"]

/-- The three activity statuses of the canonical state machine. -/
def activityStatuses : List String :=
  ["listening", "thinking", "speaking"]

/-- A normalized transcript entry, the `{role, text}` pairs held in
`OmniChatState.transcripts`. -/
structure TranscriptEntry where
  role : String
  text : String
deriving DecidableEq, Repr

/-- The canonical session state of the unified controller, mirroring the
`OmniChatState` interface of `use-omni-chat.ts`. -/
structure OmniChatState where
  isConnected : Bool
  isConnecting : Bool
  status : String
  statusMessage : String
  transcripts : List TranscriptEntry
  callId : Option String
  error : Option String
  isMuted : Bool
  provider : String
deriving DecidableEq, Repr

/-- The initial state installed by `useState` in `useOmniChat`. -/
def initialState (provider : String) : OmniChatState :=
  { isConnected := false
    isConnecting := false
    status := "disconnected"
    statusMessage := "Disconnected"
    transcripts := []
    callId := none
    error := none
    isMuted := false
    provider := provider }

/-! ## Vogent adapter -/

/-- Raw Vogent transcript entry as delivered by `monitorTranscript`. -/
structure VogentRawEntry where
  speaker : String
  text : String
deriving DecidableEq, Repr

/-- The `VogentStatus` union type of `omni-voice.ts`: the raw status values
the Vogent provider can emit. -/
inductive VogentStatus where
  | connecting
  | connected
  | ended
  | error
deriving DecidableEq, Repr

/-- The string carried by each `VogentStatus` value. -/
def VogentStatus.raw : VogentStatus → String
  | .connecting => "connecting"
  | .connected => "connected"
  | .ended => "ended"
  | .error => "error"

/-- `getVogentStatusMessage` from `omni-voice.ts` (on the raw string, with the
default branch for anything outside the vocabulary). -/
def getVogentStatusMessage (status : String) : String :=
  if status == "connecting" then "Connecting..."
  else if status == "connected" then "Connected"
  else if status == "ended" then "Call Ended"
  else if status == "error" then "Error"
  else "Unknown"

/-- The Vogent `status` listener of `useVogentProvider.startCall`: lowercases
the raw status, stores it in `status`, derives `isConnected`, and keeps
`isConnecting` unless connected. -/
def vogentStatusStep (raw : String) (s : OmniChatState) : OmniChatState :=
  let normalizedStatus := jsToLowerCase raw
  let isConnected := normalizedStatus == "connected"
  { s with
    status := normalizedStatus
    statusMessage := getVogentStatusMessage normalizedStatus
    isConnected := isConnected
    isConnecting := if isConnected then false else s.isConnecting }

/-- The filter-and-map body of `useVogentProvider.handleTranscriptUpdate`:
drop entries with empty or whitespace-only text, then map the uppercased
speaker tag to a canonical role. -/
def vogentFormatTranscripts (transcript : List VogentRawEntry) : List TranscriptEntry :=
  (transcript.filter fun t => t.text != "" && jsTrim t.text != "").map fun t =>
    let speaker := jsToUpperCase t.speaker
    { role := if speaker == "HUMAN" || speaker == "USER" then "user" else "assistant"
      text := t.text }

/-- `handleTranscriptUpdate` replaces the state transcripts with the
formatted array. -/
def vogentTranscriptStep (transcript : List VogentRawEntry) (s : OmniChatState) : OmniChatState :=
  { s with transcripts := vogentFormatTranscripts transcript }

/-! ## Vapi adapter -/

/-- A raw Vapi `message` event payload; absent string fields are embedded as
the empty string, matching the `|| ""` fallbacks of the source. -/
structure VapiMessage where
  type : String
  transcriptType : String
  role : String
  transcript : String
  content : String
deriving DecidableEq, Repr

/-- The events the Vapi client can deliver to the listeners registered in
`useVapiProvider.startCall`. -/
inductive VapiEvent where
  | callStart
  | callEnd
  | speechStart
  | speechEnd
  | message (m : VapiMessage)
  | errorEvent (msg : String)
deriving DecidableEq, Repr

/-- Role computed by the Vapi `message` listener for a transcript event. -/
def vapiMessageRole (m : VapiMessage) : String :=
  if m.role == "user" then "user" else "assistant"

/-- Text computed by the Vapi `message` listener:
`message.transcript || message.content || ""`. -/
def vapiMessageText (m : VapiMessage) : String :=
  if m.transcript != "" then m.transcript else m.content

/-- The transcript part of the Vapi `message` listener: only events of type
`transcript` marked `final` with non-blank text append one entry. -/
def vapiMessageStepTranscripts (m : VapiMessage) (ts : List TranscriptEntry) : List TranscriptEntry :=
  if m.type == "transcript" && m.transcriptType == "final" then
    if jsTrim (vapiMessageText m) == "" then ts
    else ts ++ [{ role := vapiMessageRole m, text := vapiMessageText m }]
  else ts

/-- One Vapi event applied to the canonical state, combining the
`call-start`, `call-end`, `speech-start`, `speech-end`, `message` and
`error` listeners of `useVapiProvider.startCall`. -/
def vapiStep (e : VapiEvent) (s : OmniChatState) : OmniChatState :=
  match e with
  | .callStart =>
      { s with status := "connected", statusMessage := "Connected - Ready"
               isConnecting := false, isConnected := true }
  | .callEnd =>
      { s with status := "disconnected", statusMessage := "Disconnected"
               isConnected := false, callId := none }
  | .speechStart =>
      { s with status := "listening", statusMessage := "Listening..." }
  | .speechEnd =>
      { s with status := "thinking", statusMessage := "Thinking..." }
  | .message m =>
      { s with transcripts := vapiMessageStepTranscripts m s.transcripts }
  | .errorEvent msg =>
      if jsIncludes (jsToLowerCase msg) "meeting ended"
          || jsIncludes (jsToLowerCase msg) "ejection" then s
      else if msg != "" then { s with error := some msg }
      else s

/-! ## Ultravox adapter -/

/-- The `UltravoxSessionStatus` enumeration of the external `ultravox-client`
library (the family-C raw status vocabulary listed in the repository docs). -/
inductive UltravoxSessionStatus where
  | disconnected
  | disconnecting
  | connecting
  | idle
  | listening
  | thinking
  | speaking
deriving DecidableEq, Repr

/-- String value of each `UltravoxSessionStatus` member, i.e. what
`String(status)` yields in the status listener.  Modelled from the spec and
repository docs for the external `ultravox-client` enum, whose members carry
their lowercase names as string values. -/
def UltravoxSessionStatus.raw : UltravoxSessionStatus → String
  | .disconnected => "disconnected"
  | .disconnecting => "disconnecting"
  | .connecting => "connecting"
  | .idle => "idle"
  | .listening => "listening"
  | .thinking => "thinking"
  | .speaking => "speaking"

/-- `getUltravoxStatusMessage` from `useUltravoxProvider`. -/
def getUltravoxStatusMessage : UltravoxSessionStatus → String
  | .disconnected => "Disconnected"
  | .disconnecting => "Disconnecting..."
  | .connecting => "Connecting..."
  | .idle => "Connected - Ready"
  | .listening => "Listening..."
  | .thinking => "Thinking..."
  | .speaking => "Speaking..."

/-- The Ultravox `status` listener: stores `String(status)` in `status` and
derives `isConnected` from the session not being disconnected or
disconnecting. -/
def ultravoxStatusStep (status : UltravoxSessionStatus) (s : OmniChatState) : OmniChatState :=
  { s with
    status := status.raw
    statusMessage := getUltravoxStatusMessage status
    isConnected :=
      !(status == UltravoxSessionStatus.disconnected
        || status == UltravoxSessionStatus.disconnecting) }

/-- Raw transcript entry held by the Ultravox session object. -/
structure UltravoxRawTranscript where
  speaker : String
  text : String
deriving DecidableEq, Repr

/-- The re-mapping done by `useUltravoxProvider.updateTranscripts` over the
full `session.transcripts` array. -/
def ultravoxFormatTranscripts (transcripts : List UltravoxRawTranscript) : List TranscriptEntry :=
  transcripts.map fun t =>
    let speaker := jsToLowerCase t.speaker
    { role := if speaker == "user" then "user" else "assistant"
      text := t.text }

/-- `updateTranscripts` replaces the local transcripts wholesale with the
re-mapped session array. -/
def ultravoxUpdateTranscripts (sessionTranscripts : List UltravoxRawTranscript)
    (s : OmniChatState) : OmniChatState :=
  { s with transcripts := ultravoxFormatTranscripts sessionTranscripts }

/-! ## Start-call models

The asynchronous body of each provider `startCall` is modelled atomically
(single-threaded event-loop scheduling, state updates applied in program
order), parameterised by the outcome of its network suspensions.  Each
function returns the new state together with the number of live connection
objects constructed during that invocation. -/

/-- Outcome of the suspension points inside a `startCall` body:
either the whole sequence succeeds, the session-initiation request fails
before the connection object is constructed, or opening the channel fails
after the connection object exists. -/
inductive StartOutcome where
  | success (callId : String)
  | initiateFailure (msg : String)
  | connectFailure (msg : String)
deriving DecidableEq, Repr

/-- `useVogentProvider.startCall`: guarded on `isConnecting || isConnected`;
on success sets `connected` state, on failure clears `isConnecting` and
stores the error message. -/
def vogentStartCall (outcome : StartOutcome) (s : OmniChatState) : OmniChatState × Nat :=
  if s.isConnecting || s.isConnected then (s, 0)
  else
    match outcome with
    | .success callId =>
        ({ s with isConnecting := false, isConnected := true
                  callId := some callId, status := "connected", error := none }, 1)
    | .initiateFailure msg =>
        ({ s with isConnecting := false, error := some msg }, 0)
    | .connectFailure msg =>
        ({ s with isConnecting := false, error := some msg }, 1)

/-- `useVapiProvider.startCall`: same guard; the Vapi instance is constructed
before `vapi.start`, and connection/`isConnected` is only flipped later by
the `call-start` event, so a successful body leaves `isConnecting` true and
records the returned call id. -/
def vapiStartCall (outcome : StartOutcome) (s : OmniChatState) : OmniChatState × Nat :=
  if s.isConnecting || s.isConnected then (s, 0)
  else
    match outcome with
    | .success callId =>
        ({ s with isConnecting := true, error := none, callId := some callId }, 1)
    | .initiateFailure msg =>
        ({ s with isConnecting := false, error := some msg }, 0)
    | .connectFailure msg =>
        ({ s with isConnecting := false, error := some msg }, 1)

/-- `useUltravoxProvider.startCall`: same guard; on success the session is
constructed, the call joined, and the state set to connected. -/
def ultravoxStartCall (outcome : StartOutcome) (s : OmniChatState) : OmniChatState × Nat :=
  if s.isConnecting || s.isConnected then (s, 0)
  else
    match outcome with
    | .success callId =>
        ({ s with isConnecting := false, isConnected := true
                  callId := some callId }, 1)
    | .initiateFailure msg =>
        ({ s with isConnecting := false, error := some msg }, 0)
    | .connectFailure msg =>
        ({ s with isConnecting := false, error := some msg }, 1)

/-! ## End-call models -/

/-- The active provider selected by `useOmniChat`. -/
inductive Provider where
  | vogent
  | vapi
  | ultravox
deriving DecidableEq, Repr

/-- The mutable refs held by the three adapter hooks: whether each holds a
live connection object / transcript unsubscriber. -/
structure AdapterRefs where
  vogentCall : Bool
  vogentUnsubscribe : Bool
  vapiInstance : Bool
  ultravoxSession : Bool
deriving DecidableEq, Repr

/-- `useVogentProvider.endCall`: no-op without a call ref; otherwise the
`try { unsubscribe; hangup; DELETE } catch { log } finally { ref := null }`
block clears both refs and surfaces no exception in either outcome. -/
def vogentEndCall (teardown : Except String Unit) (refs : AdapterRefs) :
    AdapterRefs × Option String :=
  if !refs.vogentCall then (refs, none)
  else
    match teardown with
    | .ok _ => ({ refs with vogentCall := false, vogentUnsubscribe := false }, none)
    | .error _ => ({ refs with vogentCall := false, vogentUnsubscribe := false }, none)

/-- `useVapiProvider.endCall`: no-op without an instance; `stop()` failures
are caught (benign "meeting ended" ones silently), and the ref is cleared in
the `finally` block; nothing is surfaced. -/
def vapiEndCall (teardown : Except String Unit) (refs : AdapterRefs) :
    AdapterRefs × Option String :=
  if !refs.vapiInstance then (refs, none)
  else
    match teardown with
    | .ok _ => ({ refs with vapiInstance := false }, none)
    | .error _ => ({ refs with vapiInstance := false }, none)

/-- `useUltravoxProvider.endCall`: no-op without a session; `leaveCall` and
the DELETE request run in a `try/catch` with a `finally` clearing the ref;
nothing is surfaced. -/
def ultravoxEndCall (teardown : Except String Unit) (refs : AdapterRefs) :
    AdapterRefs × Option String :=
  if !refs.ultravoxSession then (refs, none)
  else
    match teardown with
    | .ok _ => ({ refs with ultravoxSession := false }, none)
    | .error _ => ({ refs with ultravoxSession := false }, none)

/-- Dispatch of `endCall` to the active adapter, as done by `getProvider`. -/
def adapterEndCall (p : Provider) (teardown : Except String Unit) (refs : AdapterRefs) :
    AdapterRefs × Option String :=
  match p with
  | .vogent => vogentEndCall teardown refs
  | .vapi => vapiEndCall teardown refs
  | .ultravox => ultravoxEndCall teardown refs

/-- `useOmniChat.endCall`: awaits the active adapter teardown, then resets
every canonical session field.  A surfaced adapter exception would abort the
`await` and skip the reset, which the model makes explicit. -/
def useOmniChatEndCall (p : Provider) (teardown : Except String Unit)
    (refs : AdapterRefs) (s : OmniChatState) : AdapterRefs × OmniChatState :=
  let r := adapterEndCall p teardown refs
  match r.2 with
  | some _ => (r.1, s)
  | none =>
      (r.1,
        { s with isConnected := false, isConnecting := false
                 status := "disconnected", statusMessage := "Disconnected"
                 transcripts := [], callId := none, error := none
                 isMuted := false })

/-! ## Session initiation clients (`lib/ai/omni-voice.ts`) -/

/-- One element of a chat message `parts` array; an absent `text` field is
embedded as the empty string, matching the falsy check of the source. -/
structure MessagePart where
  type : String
  text : String
deriving DecidableEq, Repr

/-- A prior chat message handed to the session initiation clients. -/
structure ChatMessage where
  role : String
  parts : List MessagePart
deriving DecidableEq, Repr

/-- A `{role, content}` pair sent to a provider. -/
structure ProviderMessage where
  role : String
  content : String
deriving DecidableEq, Repr

/-- `msg.parts.find((p) => p.type === "text" && p.text)`. -/
def findTextPart (parts : List MessagePart) : Option MessagePart :=
  parts.find? fun p => p.type == "text" && p.text != ""

/-- Role translation used by `formatMessagesForVapi`. -/
def vapiHistoryRole (role : String) : String :=
  if role == "user" then "user"
  else if role == "system" then "system"
  else "assistant"

/-- `formatMessagesForVapi`: translate each message with a non-empty text
part to a `{role, content}` pair and drop the rest (map-then-filter-null in
the source, embedded as `filterMap`). -/
def formatMessagesForVapi (messages : List ChatMessage) : List ProviderMessage :=
  messages.filterMap fun msg =>
    match findTextPart msg.parts with
    | none => none
    | some p => some { role := vapiHistoryRole msg.role, content := p.text }

/-- Role translation used by `formatMessagesForUltravox`:
`msg.role === "user" ? "user" : "assistant"`. -/
def ultravoxHistoryRole (role : String) : String :=
  if role == "user" then "user" else "assistant"

/-- `formatMessagesForUltravox`: like the Vapi formatter but with only the
`user`/`assistant` roles. -/
def formatMessagesForUltravox (messages : List ChatMessage) : List ProviderMessage :=
  messages.filterMap fun msg =>
    match findTextPart msg.parts with
    | none => none
    | some p => some { role := ultravoxHistoryRole msg.role, content := p.text }

/-- `DEFAULT_SYSTEM_PROMPT` from `omni-voice.ts`. -/
def DEFAULT_SYSTEM_PROMPT : String :=
  "You are an expert teaching assistant dedicated to helping students learn effectively.\n\nYour approach:\n- Ask probing questions to understand the student\x27s current knowledge level\n- Identify knowledge gaps and misconceptions\n- Break down complex topics into digestible pieces\n- Use analogies and real-world examples to explain concepts\n- Encourage critical thinking rather than just giving answers\n- Celebrate progress and provide constructive feedback\n- Adapt your teaching style to the student\x27s needs\n\nWhen a student asks a question:\n1. First assess what they already know about the topic\n2. Identify any misconceptions\n3. Build on their existing knowledge\n4. Check for understanding before moving on\n\nUse the web search tool when you need current information, statistics, or to verify facts.\n\nKeep responses conversational and engaging. Speak naturally without markdown or lists since this is a voice conversation."

/-- The system prompt chosen by the `/api/omni-voice` route:
`systemPrompt || DEFAULT_SYSTEM_PROMPT`. -/
def routeSystemPrompt (requested : Option String) : String :=
  match requested with
  | none => DEFAULT_SYSTEM_PROMPT
  | some p => if p == "" then DEFAULT_SYSTEM_PROMPT else p

/-- The `assistant.model.messages` array built by `createVapiCall`: the
system prompt followed by the translated history (empty when no history was
supplied). -/
def vapiAssistantMessages (systemPrompt : String) (messages : Option (List ChatMessage)) :
    List ProviderMessage :=
  { role := "system", content := systemPrompt } ::
    (match messages with
     | some ms => formatMessagesForVapi ms
     | none => [])

/-- The `initialMessages` value computed by `createUltravoxCall` before the
non-empty check. -/
def ultravoxInitialMessages (messages : Option (List ChatMessage)) :
    Option (List ProviderMessage) :=
  messages.map formatMessagesForUltravox

/-- A message contributes to the translated history exactly when it has a
non-empty text part. -/
def hasTextPart (msg : ChatMessage) : Bool :=
  (findTextPart msg.parts).isSome

/-- The `{role, content}` pair produced for one message by the Vapi
formatter (content of the found text part, empty if none). -/
def vapiTranslateMessage (msg : ChatMessage) : ProviderMessage :=
  { role := vapiHistoryRole msg.role
    content := ((findTextPart msg.parts).map MessagePart.text).getD "" }

/-- The `{role, content}` pair produced for one message by the Ultravox
formatter. -/
def ultravoxTranslateMessage (msg : ChatMessage) : ProviderMessage :=
  { role := ultravoxHistoryRole msg.role
    content := ((findTextPart msg.parts).map MessagePart.text).getD "" }

/-! ## Terminate operations -/

/-- An HTTP response to a delete-call request; `ok` is the JavaScript
`Response.ok`, i.e. a 2xx status. -/
structure HttpResponse where
  status : Nat
deriving DecidableEq, Repr

/-- JavaScript `Response.ok`. -/
def HttpResponse.ok (r : HttpResponse) : Bool :=
  200 ≤ r.status && r.status < 300

/-- `endVapiCall`: the whole body sits in a `try/catch`, so neither a failed
fetch (`none`) nor any response status raises; the second component records
whether a failure was logged (non-2xx other than 404, or a thrown fetch). -/
def endVapiCall (result : Option HttpResponse) : Except String Unit × Bool :=
  match result with
  | none => (Except.ok (), true)
  | some r => (Except.ok (), !r.ok && r.status != 404)

/-- `endUltravoxCall`: raises unless the response is 2xx or one of the
tolerated 404 / 410 / 425 statuses. -/
def endUltravoxCall (r : HttpResponse) : Except String Unit :=
  if !r.ok && !([404, 410, 425].contains r.status) then
    Except.error "Failed to end call"
  else Except.ok ()

/-! ## Status traces

For the temporal property (connected before any activity status) the
sequence of canonical statuses observed after each provider event is
collected into a trace. -/

/-- Statuses observed while folding Vapi events over a state. -/
def vapiTrace (s : OmniChatState) : List VapiEvent → List String
  | [] => []
  | e :: rest =>
      let s2 := vapiStep e s
      s2.status :: vapiTrace s2 rest

/-- Statuses observed while folding Vogent status events over a state. -/
def vogentTrace (s : OmniChatState) : List VogentStatus → List String
  | [] => []
  | v :: rest =>
      let s2 := vogentStatusStep v.raw s
      s2.status :: vogentTrace s2 rest

/-- Statuses observed while folding Ultravox status events over a state. -/
def ultravoxTrace (s : OmniChatState) : List UltravoxSessionStatus → List String
  | [] => []
  | u :: rest =>
      let s2 := ultravoxStatusStep u s
      s2.status :: ultravoxTrace s2 rest

/-- A trace satisfies the connected-before-activity discipline relative to a
marker status: every activity status must be preceded (strictly or at the
given start flag) by an occurrence of the marker. -/
def okTraceWith (marker : String) (seen : Bool) : List String → Bool
  | [] => true
  | st :: rest =>
      (!(activityStatuses.contains st) || seen)
        && okTraceWith marker (seen || st == marker) rest

/-- Event-ordering discipline for Vapi: every speech event is preceded by a
`call-start` event (the flag records whether one was already seen). -/
def speechAfterCallStart (seen : Bool) : List VapiEvent → Bool
  | [] => true
  | .speechStart :: rest => seen && speechAfterCallStart seen rest
  | .speechEnd :: rest => seen && speechAfterCallStart seen rest
  | .callStart :: rest => speechAfterCallStart true rest
  | _ :: rest => speechAfterCallStart seen rest

/-- Event-ordering discipline for Ultravox: every listening / thinking /
speaking status event is preceded by an `idle` status event. -/
def idleBeforeActivity (seen : Bool) : List UltravoxSessionStatus → Bool
  | [] => true
  | .listening :: rest => seen && idleBeforeActivity seen rest
  | .thinking :: rest => seen && idleBeforeActivity seen rest
  | .speaking :: rest => seen && idleBeforeActivity seen rest
  | .idle :: rest => idleBeforeActivity true rest
  | _ :: rest => idleBeforeActivity seen rest

/-! ## Theorems -/

/-- C2: for every provider and every starting state, after `endCall`
completes the canonical state is fully reset — `isConnected = false`,
`isConnecting = false`, `status = "disconnected"`, `transcripts = []`,
`error = none` — regardless of whether the adapter teardown succeeded or
threw. -/
theorem c2_endCall_resets (p : Provider) (teardown : Except String Unit)
    (refs : AdapterRefs) (s : OmniChatState) :
    (useOmniChatEndCall p teardown refs s).2.isConnected = false
    ∧ (useOmniChatEndCall p teardown refs s).2.isConnecting = false
    ∧ (useOmniChatEndCall p teardown refs s).2.status = "disconnected"
    ∧ (useOmniChatEndCall p teardown refs s).2.transcripts = []
    ∧ (useOmniChatEndCall p teardown refs s).2.error = none := by
  have h : (adapterEndCall p teardown refs).2 = none := by
    cases p <;> cases teardown <;>
      simp only [adapterEndCall, vogentEndCall, vapiEndCall, ultravoxEndCall] <;>
      split <;> rfl
  simp [useOmniChatEndCall, h]

/-- C4: on every Ultravox transcript tick the whole session array is
re-mapped and replaces the local copy: the resulting transcripts equal the
re-mapped raw array and are independent of whatever the prior local state
held (no append, no deduplication against prior state). -/
theorem c4_ultravox_snapshot (raw : List UltravoxRawTranscript) (s s' : OmniChatState) :
    (ultravoxUpdateTranscripts raw s).transcripts = ultravoxFormatTranscripts raw
    ∧ (ultravoxUpdateTranscripts raw s).transcripts
        = (ultravoxUpdateTranscripts raw s').transcripts :=
  ⟨rfl, rfl⟩

/-- C8: the terminate operations treat "not found / already gone / too
early" delete responses as success: `endUltravoxCall` does not raise on
404, 410 or 425, and `endVapiCall` never raises at all — in particular not
on a 404 for an already-ended call. -/
theorem c8_terminate_tolerates (r : HttpResponse) (result : Option HttpResponse) :
    (r.status = 404 ∨ r.status = 410 ∨ r.status = 425 →
      endUltravoxCall r = Except.ok ())
    ∧ (endVapiCall result).1 = Except.ok () := by
  constructor
  · intro h
    rcases h with h | h | h <;> simp [endUltravoxCall, HttpResponse.ok, h]
  · cases result <;> rfl

/-- Closed instance of `c8_terminate_tolerates` at status 404. -/
theorem c8_witness :
    endUltravoxCall { status := 404 } = Except.ok ()
    ∧ (endVapiCall (some { status := 404 })).1 = Except.ok () :=
  ⟨(c8_terminate_tolerates { status := 404 } (some { status := 404 })).1 (Or.inl rfl),
    (c8_terminate_tolerates { status := 404 } (some { status := 404 })).2⟩

/-- C3: for every provider family, a `startCall` invocation while the state
already shows connecting or connected is a no-op (state unchanged, no
connection object constructed); starting from an idle state, a successful
first invocation followed by any second invocation constructs exactly one
live connection object across the two invocations. -/
theorem c3_start_idempotent :
    (∀ (s : OmniChatState) (o : StartOutcome),
        (s.isConnecting || s.isConnected) = true →
        vogentStartCall o s = (s, 0) ∧ vapiStartCall o s = (s, 0)
          ∧ ultravoxStartCall o s = (s, 0))
    ∧ (∀ (s : OmniChatState) (callId : String) (o : StartOutcome),
        s.isConnecting = false → s.isConnected = false →
        (vogentStartCall o (vogentStartCall (.success callId) s).1
            = ((vogentStartCall (.success callId) s).1, 0)
          ∧ (vogentStartCall (.success callId) s).2
              + (vogentStartCall o (vogentStartCall (.success callId) s).1).2 = 1)
        ∧ (vapiStartCall o (vapiStartCall (.success callId) s).1
            = ((vapiStartCall (.success callId) s).1, 0)
          ∧ (vapiStartCall (.success callId) s).2
              + (vapiStartCall o (vapiStartCall (.success callId) s).1).2 = 1)
        ∧ (ultravoxStartCall o (ultravoxStartCall (.success callId) s).1
            = ((ultravoxStartCall (.success callId) s).1, 0)
          ∧ (ultravoxStartCall (.success callId) s).2
              + (ultravoxStartCall o (ultravoxStartCall (.success callId) s).1).2 = 1)) := by
  constructor
  · intro s o h
    refine ⟨?_, ?_, ?_⟩ <;> simp [vogentStartCall, vapiStartCall, ultravoxStartCall, h]
  · intro s callId o h1 h2
    refine ⟨⟨?_, ?_⟩, ⟨?_, ?_⟩, ⟨?_, ?_⟩⟩ <;>
      simp [vogentStartCall, vapiStartCall, ultravoxStartCall, h1, h2]

/-- Closed instance of `c3_start_idempotent`: a second start while
connecting is ignored, and a success-then-retry pair creates one
connection. -/
theorem c3_witness :
    vapiStartCall (.success "c2") { initialState "vapi" with isConnecting := true }
      = ({ initialState "vapi" with isConnecting := true }, 0)
    ∧ (vogentStartCall (.success "d1") (initialState "vogent")).2
        + (vogentStartCall (.success "d2")
            (vogentStartCall (.success "d1") (initialState "vogent")).1).2 = 1 :=
  ⟨((c3_start_idempotent.1 { initialState "vapi" with isConnecting := true }
      (.success "c2") (by decide)).2.1),
    ((c3_start_idempotent.2 (initialState "vogent") "d1" (.success "d2")
      (by decide) (by decide)).1.2)⟩

/-- C5: in the Vapi message listener, an event whose `transcriptType` is not
`"final"` never changes the transcripts, while a `"transcript"` event marked
`"final"` with non-blank text appends exactly one `{role, text}` entry at
the end (arrival order). -/
theorem c5_vapi_final_only (m : VapiMessage) (ts : List TranscriptEntry) :
    (m.transcriptType ≠ "final" → vapiMessageStepTranscripts m ts = ts)
    ∧ (m.type = "transcript" → m.transcriptType = "final" →
        jsTrim (vapiMessageText m) ≠ "" →
        vapiMessageStepTranscripts m ts
          = ts ++ [{ role := vapiMessageRole m, text := vapiMessageText m }]) := by
  constructor
  · intro h
    simp [vapiMessageStepTranscripts, h]
  · intro h1 h2 h3
    simp [vapiMessageStepTranscripts, h1, h2, h3]

/-- Closed instance of `c5_vapi_final_only` on the spec scenario: a partial
`"hel"` event leaves the transcripts unchanged and a subsequent final
`"hello"` event appends one user entry. -/
theorem c5_witness :
    vapiMessageStepTranscripts
      { type := "transcript", transcriptType := "partial", role := "user"
        transcript := "hel", content := "" } [] = []
    ∧ vapiMessageStepTranscripts
        { type := "transcript", transcriptType := "final", role := "user"
          transcript := "hello", content := "" } []
        = [{ role := "user", text := "hello" }] :=
  ⟨(c5_vapi_final_only
      { type := "transcript", transcriptType := "partial", role := "user"
        transcript := "hel", content := "" } []).1 (by decide),
    by
      simpa using (c5_vapi_final_only
        { type := "transcript", transcriptType := "final", role := "user"
          transcript := "hello", content := "" } []).2 rfl rfl (by decide)⟩

/-! ### Case-insensitivity bridge for the Vogent speaker tags -/

/-- `Char.ofNat` evaluates back to the code point on valid inputs. -/
theorem char_toNat_ofNat_valid {n : Nat} (h : n.isValidChar) :
    (Char.ofNat n).toNat = n := by
  rw [Char.ofNat, dif_pos h]
  rfl

/-- Characters are determined by their code points. -/
theorem char_toNat_inj {c d : Char} (h : c.toNat = d.toNat) : c = d := by
  rw [← Char.ofNat_toNat c, ← Char.ofNat_toNat d, h]

/-- Characters agree exactly when their code points do. -/
theorem char_eq_iff_toNat {c d : Char} : c = d ↔ c.toNat = d.toNat :=
  ⟨fun h => by rw [h], char_toNat_inj⟩

/-- `Char.ofNat m = d` reduces to `m = d.toNat` on valid inputs. -/
theorem char_ofNat_eq_iff {m : Nat} (hm : m.isValidChar) (d : Char) :
    Char.ofNat m = d ↔ m = d.toNat := by
  constructor
  · intro h
    rw [← char_toNat_ofNat_valid hm, h]
  · intro h
    subst h
    exact Char.ofNat_toNat d

/-- For an ASCII upper-case letter `U` with lower-case counterpart `L`,
uppercasing a character yields `U` exactly when lowercasing it yields
`L`. -/
theorem char_toUpper_eq_iff_toLower_eq (c U L : Char)
    (h1 : 65 ≤ U.toNat) (h2 : U.toNat ≤ 90) (h3 : L.toNat = U.toNat + 32) :
    Char.toUpper c = U ↔ Char.toLower c = L := by
  have hvalidU : (c.toNat - 32).isValidChar → True := fun _ => trivial
  unfold Char.toUpper Char.toLower
  by_cases hA : 97 ≤ c.toNat ∧ c.toNat ≤ 122
  · have hB : ¬(65 ≤ c.toNat ∧ c.toNat ≤ 90) := by omega
    rw [if_pos hA, if_neg hB]
    have hv : (c.toNat - 32).isValidChar := Or.inl (by omega)
    rw [char_ofNat_eq_iff hv U, char_eq_iff_toNat]
    omega
  · by_cases hB : 65 ≤ c.toNat ∧ c.toNat ≤ 90
    · rw [if_neg hA, if_pos hB]
      have hv : (c.toNat + 32).isValidChar := Or.inl (by omega)
      rw [char_ofNat_eq_iff hv L, char_eq_iff_toNat]
      omega
    · rw [if_neg hA, if_neg hB]
      rw [char_eq_iff_toNat, char_eq_iff_toNat]
      constructor
      · intro h
        omega
      · intro h
        omega

/-- Lifting of `char_toUpper_eq_iff_toLower_eq` to character lists related
pointwise as upper/lower-case ASCII pairs. -/
theorem map_toUpper_eq_iff_map_toLower (up lo : List Char)
    (h : List.Forall₂
      (fun U L => 65 ≤ U.toNat ∧ U.toNat ≤ 90 ∧ L.toNat = U.toNat + 32) up lo) :
    ∀ l : List Char, (l.map Char.toUpper = up ↔ l.map Char.toLower = lo) := by
  induction h with
  | nil =>
      intro l
      simp [List.map_eq_nil_iff]
  | cons hUL hrest ih =>
      intro l
      cases l with
      | nil => simp
      | cons c l' =>
          simp only [List.map_cons, List.cons.injEq]
          exact and_congr
            (char_toUpper_eq_iff_toLower_eq c _ _ hUL.1 hUL.2.1 hUL.2.2) (ih l')

/-- The Vogent speaker comparison on the uppercased tag coincides with the
spec-side case-insensitive comparison on the lowercased tag. -/
theorem jsToUpperCase_human_user_iff (s : String) :
    ((jsToUpperCase s == "HUMAN" || jsToUpperCase s == "USER")
      = (jsToLowerCase s == "human" || jsToLowerCase s == "user")) := by
  have hH : jsToUpperCase s = "HUMAN" ↔ jsToLowerCase s = "human" := by
    rw [jsToUpperCase, jsToLowerCase, String.ext_iff, String.ext_iff]
    exact map_toUpper_eq_iff_map_toLower _ _
      (by
        refine List.Forall₂.cons (by refine ⟨?_, ?_, ?_⟩ <;> decide) ?_
        refine List.Forall₂.cons (by refine ⟨?_, ?_, ?_⟩ <;> decide) ?_
        refine List.Forall₂.cons (by refine ⟨?_, ?_, ?_⟩ <;> decide) ?_
        refine List.Forall₂.cons (by refine ⟨?_, ?_, ?_⟩ <;> decide) ?_
        refine List.Forall₂.cons (by refine ⟨?_, ?_, ?_⟩ <;> decide) ?_
        exact List.Forall₂.nil) s.data
  have hU : jsToUpperCase s = "USER" ↔ jsToLowerCase s = "user" := by
    rw [jsToUpperCase, jsToLowerCase, String.ext_iff, String.ext_iff]
    exact map_toUpper_eq_iff_map_toLower _ _
      (by
        refine List.Forall₂.cons (by refine ⟨?_, ?_, ?_⟩ <;> decide) ?_
        refine List.Forall₂.cons (by refine ⟨?_, ?_, ?_⟩ <;> decide) ?_
        refine List.Forall₂.cons (by refine ⟨?_, ?_, ?_⟩ <;> decide) ?_
        refine List.Forall₂.cons (by refine ⟨?_, ?_, ?_⟩ <;> decide) ?_
        exact List.Forall₂.nil) s.data
  have e1 : (jsToUpperCase s == "HUMAN") = (jsToLowerCase s == "human") := by
    by_cases h : jsToUpperCase s = "HUMAN"
    · simp [h, hH.mp h]
    · have h2 : ¬jsToLowerCase s = "human" := fun h2 => h (hH.mpr h2)
      simp [h, h2]
  have e2 : (jsToUpperCase s == "USER") = (jsToLowerCase s == "user") := by
    by_cases h : jsToUpperCase s = "USER"
    · simp [h, hU.mp h]
    · have h2 : ¬jsToLowerCase s = "user" := fun h2 => h (hU.mpr h2)
      simp [h, h2]
  rw [e1, e2]

/-- The source filter (truthy text and non-blank trim) coincides with the
spec-side "drop empty or whitespace-only text" predicate. -/
theorem text_filter_eq_trim (t : String) :
    (t != "" && jsTrim t != "") = (jsTrim t != "") := by
  by_cases h : t = ""
  · subst h
    rfl
  · have h2 : (t != "") = true := by simp [h]
    rw [h2, Bool.true_and]

/-- C6: Vogent transcript normalization equals the spec-side normalizer —
drop entries whose text is empty or whitespace-only, map any letter-case
spelling of "human"/"user" to role `user` and every other speaker tag to
`assistant` — and consequently no blank entry ever appears in the
normalized output. -/
theorem c6_vogent_normalization (transcript : List VogentRawEntry) :
    vogentFormatTranscripts transcript
      = (transcript.filter fun t => jsTrim t.text != "").map (fun t =>
          { role := if jsToLowerCase t.speaker == "human"
                        || jsToLowerCase t.speaker == "user"
                    then "user" else "assistant"
            text := t.text })
    ∧ ∀ e ∈ vogentFormatTranscripts transcript, jsTrim e.text ≠ "" := by
  constructor
  · simp only [vogentFormatTranscripts]
    have hfilter : (fun t : VogentRawEntry => t.text != "" && jsTrim t.text != "")
        = fun t => jsTrim t.text != "" := funext fun t => text_filter_eq_trim t.text
    have hfun : (fun t : VogentRawEntry =>
          ({ role := if jsToUpperCase t.speaker == "HUMAN"
                        || jsToUpperCase t.speaker == "USER"
                      then "user" else "assistant"
             text := t.text } : TranscriptEntry))
        = fun t =>
          ({ role := if jsToLowerCase t.speaker == "human"
                        || jsToLowerCase t.speaker == "user"
                      then "user" else "assistant"
             text := t.text } : TranscriptEntry) := by
      funext t
      rw [jsToUpperCase_human_user_iff]
    rw [hfilter, hfun]
  · intro e he
    simp only [vogentFormatTranscripts, List.mem_map, List.mem_filter] at he
    obtain ⟨t, ⟨_, hp⟩, rfl⟩ := he
    have h2 := (Bool.and_eq_true _ _).mp hp
    simpa using h2.2

/-- Closed instance of `c6_vogent_normalization` on a concrete transcript
with mixed-case speakers and a whitespace-only entry. -/
theorem c6_witness :
    vogentFormatTranscripts
        [{ speaker := "HUMAN", text := "hi" }, { speaker := "AI", text := "  " },
          { speaker := "uSeR", text := "ok" }, { speaker := "Agent", text := "yo" }]
      = (([{ speaker := "HUMAN", text := "hi" }, { speaker := "AI", text := "  " },
          { speaker := "uSeR", text := "ok" },
          { speaker := "Agent", text := "yo" }] : List VogentRawEntry).filter
            fun t => jsTrim t.text != "").map (fun t =>
          { role := if jsToLowerCase t.speaker == "human"
                        || jsToLowerCase t.speaker == "user"
                    then "user" else "assistant"
            text := t.text })
    ∧ jsTrim (TranscriptEntry.mk "user" "hi").text ≠ "" :=
  ⟨(c6_vogent_normalization
      [{ speaker := "HUMAN", text := "hi" }, { speaker := "AI", text := "  " },
        { speaker := "uSeR", text := "ok" }, { speaker := "Agent", text := "yo" }]).1,
    (c6_vogent_normalization
      [{ speaker := "HUMAN", text := "hi" }, { speaker := "AI", text := "  " },
        { speaker := "uSeR", text := "ok" }, { speaker := "Agent", text := "yo" }]).2
      (TranscriptEntry.mk "user" "hi") (by decide)⟩

/-- A `filterMap` whose function is an if-some-else-none pattern is a
filter followed by a map. -/
theorem filterMap_eq_map_filter {α β : Type} (f : α → Option β) (p : α → Bool)
    (g : α → β) (h : ∀ a, f a = if p a then some (g a) else none) :
    ∀ l : List α, l.filterMap f = (l.filter p).map g := by
  intro l
  induction l with
  | nil => rfl
  | cons a l ih =>
      rw [List.filterMap_cons, List.filter_cons, h a]
      by_cases hp : p a = true
      · simp [hp, ih]
      · simp [hp, ih]

/-- The Vapi per-message translation matches the filter/translate
decomposition. -/
theorem formatMessagesForVapi_eq (messages : List ChatMessage) :
    formatMessagesForVapi messages
      = (messages.filter hasTextPart).map vapiTranslateMessage := by
  apply filterMap_eq_map_filter
  intro msg
  simp only [hasTextPart, vapiTranslateMessage]
  cases hf : findTextPart msg.parts with
  | none => simp [hf]
  | some p => simp [hf]

/-- The Ultravox per-message translation matches the filter/translate
decomposition. -/
theorem formatMessagesForUltravox_eq (messages : List ChatMessage) :
    formatMessagesForUltravox messages
      = (messages.filter hasTextPart).map ultravoxTranslateMessage := by
  apply filterMap_eq_map_filter
  intro msg
  simp only [hasTextPart, ultravoxTranslateMessage]
  cases hf : findTextPart msg.parts with
  | none => simp [hf]
  | some p => simp [hf]

/-- C7: the history formatters translate exactly the messages with a
non-empty text payload into `{role, content}` pairs (empty ones are
dropped); a message has no text payload precisely when all of its text
parts are empty; and for the provider that accepts runtime prompts in its
message list (Vapi), the explicit-or-default system prompt is the first
entry of the messages array sent to the provider. -/
theorem c7_history_translation :
    (∀ messages : List ChatMessage,
        formatMessagesForVapi messages
          = (messages.filter hasTextPart).map vapiTranslateMessage
        ∧ formatMessagesForUltravox messages
          = (messages.filter hasTextPart).map ultravoxTranslateMessage)
    ∧ (∀ msg : ChatMessage,
        hasTextPart msg = false ↔ ∀ p ∈ msg.parts, p.type = "text" → p.text = "")
    ∧ (∀ (requested : Option String) (messages : Option (List ChatMessage)),
        (vapiAssistantMessages (routeSystemPrompt requested) messages).head?
          = some { role := "system", content := routeSystemPrompt requested }) := by
  refine ⟨fun messages => ⟨formatMessagesForVapi_eq messages,
    formatMessagesForUltravox_eq messages⟩, fun msg => ?_, fun requested messages => rfl⟩
  have hnone : hasTextPart msg = false ↔ findTextPart msg.parts = none := by
    rw [hasTextPart]
    cases findTextPart msg.parts <;> simp
  rw [hnone, findTextPart, List.find?_eq_none]
  constructor
  · intro h p hp ht
    have h2 := h p hp
    simp [ht] at h2
    exact h2
  · intro h p hp
    by_cases ht : p.type = "text"
    · have h2 := h p hp ht
      simp [ht, h2]
    · simp [ht]

/-- Closed instance of `c7_history_translation`: a history with one
non-empty and one empty message translates by dropping the empty one, an
all-empty message has no text payload, and the requested system prompt
heads the Vapi messages array. -/
theorem c7_witness :
    formatMessagesForVapi
        [{ role := "user", parts := [{ type := "text", text := "hi" }] },
          { role := "assistant", parts := [{ type := "text", text := "" }] }]
      = (([{ role := "user", parts := [{ type := "text", text := "hi" }] },
          { role := "assistant", parts := [{ type := "text", text := "" }] }]
            : List ChatMessage).filter hasTextPart).map vapiTranslateMessage
    ∧ hasTextPart { role := "assistant", parts := [{ type := "text", text := "" }] } = false
    ∧ (vapiAssistantMessages (routeSystemPrompt (some "Be brief")) (some [])).head?
        = some { role := "system", content := routeSystemPrompt (some "Be brief") } :=
  ⟨(c7_history_translation.1
      [{ role := "user", parts := [{ type := "text", text := "hi" }] },
        { role := "assistant", parts := [{ type := "text", text := "" }] }]).1,
    (c7_history_translation.2.1
      { role := "assistant", parts := [{ type := "text", text := "" }] }).mpr (by decide),
    c7_history_translation.2.2 (some "Be brief") (some [])⟩

/-- C10: the Ultravox history formatter emits only the roles `user` and
`assistant` — any source role other than exactly `"user"`, including
`"system"`, is forwarded as `assistant` — so no system-role entry ever
reaches the `initialMessages` payload. -/
theorem c10_ultravox_roles :
    (∀ role : String, role ≠ "user" → ultravoxHistoryRole role = "assistant")
    ∧ (∀ (messages : List ChatMessage) (m : ProviderMessage),
        m ∈ formatMessagesForUltravox messages →
        m.role = "user" ∨ m.role = "assistant")
    ∧ (∀ (messages : List ChatMessage) (m : ProviderMessage),
        m ∈ (ultravoxInitialMessages (some messages)).getD [] →
        m.role ≠ "system") := by
  have hroles : ∀ (messages : List ChatMessage) (m : ProviderMessage),
      m ∈ formatMessagesForUltravox messages →
      m.role = "user" ∨ m.role = "assistant" := by
    intro messages m hm
    rw [formatMessagesForUltravox_eq] at hm
    obtain ⟨msg, _, rfl⟩ := List.mem_map.mp hm
    rw [ultravoxTranslateMessage]
    by_cases h : msg.role == "user"
    · left
      simp [ultravoxHistoryRole, h]
    · right
      simp only [ultravoxHistoryRole]
      rw [if_neg]
      simpa using h
  refine ⟨fun role h => ?_, hroles, fun messages m hm => ?_⟩
  · rw [ultravoxHistoryRole, if_neg]
    simpa using h
  · have h2 := hroles messages m (by simpa [ultravoxInitialMessages] using hm)
    rcases h2 with h2 | h2 <;> simp [h2]

/-- Closed instance of `c10_ultravox_roles`: a system-role message with
text is forwarded with role `assistant`, never `system`. -/
theorem c10_witness :
    ultravoxHistoryRole "system" = "assistant"
    ∧ ((ProviderMessage.mk "assistant" "rules").role = "user"
        ∨ (ProviderMessage.mk "assistant" "rules").role = "assistant") :=
  ⟨c10_ultravox_roles.1 "system" (by decide),
    c10_ultravox_roles.2.1
      [{ role := "system", parts := [{ type := "text", text := "rules" }] }]
      (ProviderMessage.mk "assistant" "rules") (by decide)⟩

/-! ### Status range and temporal ordering -/

/-- An error event never changes the stored status. -/
theorem vapiStep_errorEvent_status (msg : String) (s : OmniChatState) :
    (vapiStep (VapiEvent.errorEvent msg) s).status = s.status := by
  rw [vapiStep]
  split
  · rfl
  · split <;> rfl

/-- Every Vapi event either stores one of the canonical statuses or leaves
the status untouched. -/
theorem vapiStep_status (e : VapiEvent) (s : OmniChatState) :
    (vapiStep e s).status ∈ canonicalStatuses ∨ (vapiStep e s).status = s.status := by
  cases e with
  | callStart => exact Or.inl (show "connected" ∈ canonicalStatuses by decide)
  | callEnd => exact Or.inl (show "disconnected" ∈ canonicalStatuses by decide)
  | speechStart => exact Or.inl (show "listening" ∈ canonicalStatuses by decide)
  | speechEnd => exact Or.inl (show "thinking" ∈ canonicalStatuses by decide)
  | message m => exact Or.inr rfl
  | errorEvent msg => exact Or.inr (vapiStep_errorEvent_status msg s)

/-- C1 counterexample: the Vogent provider can emit the raw status
`"ended"` (a member of its `VogentStatus` vocabulary), and the status
listener stores exactly that string in the session state's status field,
which is not a member of the canonical enumeration. -/
theorem c1_counterexample :
    (vogentStatusStep VogentStatus.ended.raw (initialState "vogent")).status = "ended"
    ∧ ¬("ended" ∈ canonicalStatuses) := by
  constructor
  · rfl
  · decide

/-- C1 amended: the status handling is total (every raw value is mapped,
nothing throws), but the listeners store the provider's own (lowercased /
raw) status string rather than a canonicalized one.  The stored status
always lies in the canonical enumeration extended with `"ended"` (Vogent)
and `"idle"` / `"disconnecting"` (Ultravox); the Vapi listeners store only
canonical statuses, so a Vapi trace stays canonical whenever the starting
status is. -/
theorem c1_amended_status_range :
    (∀ (v : VogentStatus) (s : OmniChatState),
        (vogentStatusStep v.raw s).status ∈ canonicalStatuses
          ∨ (vogentStatusStep v.raw s).status = "ended")
    ∧ (∀ (events : List VapiEvent) (s : OmniChatState) (st : String),
        st ∈ vapiTrace s events → st ∈ canonicalStatuses ∨ st = s.status)
    ∧ (∀ (u : UltravoxSessionStatus) (s : OmniChatState),
        (ultravoxStatusStep u s).status ∈ canonicalStatuses
          ∨ (ultravoxStatusStep u s).status = "idle"
          ∨ (ultravoxStatusStep u s).status = "disconnecting") := by
  refine ⟨fun v s => ?_, fun events => ?_, fun u s => ?_⟩
  · cases v with
    | connecting => exact Or.inl (show jsToLowerCase "connecting" ∈ canonicalStatuses by decide)
    | connected => exact Or.inl (show jsToLowerCase "connected" ∈ canonicalStatuses by decide)
    | ended => exact Or.inr (show jsToLowerCase "ended" = "ended" by decide)
    | error => exact Or.inl (show jsToLowerCase "error" ∈ canonicalStatuses by decide)
  · induction events with
    | nil =>
        intro s st h
        simp [vapiTrace] at h
    | cons e rest ih =>
        intro s st h
        simp only [vapiTrace, List.mem_cons] at h
        rcases h with h | h
        · subst h
          exact vapiStep_status e s
        · rcases ih (vapiStep e s) st h with h2 | h2
          · exact Or.inl h2
          · rw [h2]
            exact vapiStep_status e s
  · cases u with
    | disconnected => exact Or.inl (show "disconnected" ∈ canonicalStatuses by decide)
    | disconnecting => exact Or.inr (Or.inr rfl)
    | connecting => exact Or.inl (show "connecting" ∈ canonicalStatuses by decide)
    | idle => exact Or.inr (Or.inl rfl)
    | listening => exact Or.inl (show "listening" ∈ canonicalStatuses by decide)
    | thinking => exact Or.inl (show "thinking" ∈ canonicalStatuses by decide)
    | speaking => exact Or.inl (show "speaking" ∈ canonicalStatuses by decide)

/-- Closed instance of `c1_amended_status_range`: a concrete Vapi trace
stays inside the canonical enumeration. -/
theorem c1_witness :
    "listening" ∈ canonicalStatuses ∨ "listening" = (initialState "vapi").status :=
  c1_amended_status_range.2.1
    [VapiEvent.callStart, VapiEvent.speechStart] (initialState "vapi") "listening"
    (by decide)

/-- Master lemma for the Vapi trace: if every speech event is preceded by a
`call-start` (flag `b`), the connected-seen flag `c` dominates `b`, and an
activity status can only already be stored when `c` holds, then the trace
observes `connected` before any activity status. -/
theorem vapiTrace_connected_first (events : List VapiEvent) :
    ∀ (s : OmniChatState) (b c : Bool),
      speechAfterCallStart b events = true →
      (b = true → c = true) →
      (activityStatuses.contains s.status = true → c = true) →
      okTraceWith "connected" c (vapiTrace s events) = true := by
  induction events with
  | nil =>
      intro s b c _ _ _
      rfl
  | cons e rest ih =>
      intro s b c h1 h2 h3
      cases e with
      | callStart =>
          simp only [speechAfterCallStart] at h1
          simp only [vapiTrace, okTraceWith]
          have hst : (vapiStep VapiEvent.callStart s).status = "connected" := rfl
          have hc : activityStatuses.contains "connected" = false := by decide
          have hm : ("connected" == "connected") = true := rfl
          rw [hst, hc, hm]
          simp only [Bool.not_false, Bool.true_or, Bool.or_true, Bool.true_and]
          exact ih (vapiStep VapiEvent.callStart s) true true h1 (fun _ => rfl)
            (fun _ => rfl)
      | callEnd =>
          simp only [speechAfterCallStart] at h1
          simp only [vapiTrace, okTraceWith]
          have hst : (vapiStep VapiEvent.callEnd s).status = "disconnected" := rfl
          have hc : activityStatuses.contains "disconnected" = false := by decide
          have hm : ("disconnected" == "connected") = false := by decide
          rw [hst, hc, hm]
          simp only [Bool.not_false, Bool.true_or, Bool.or_false, Bool.true_and]
          exact ih (vapiStep VapiEvent.callEnd s) b c h1 h2
            (fun hact => by rw [hst, hc] at hact; exact absurd hact (by decide))
      | speechStart =>
          simp only [speechAfterCallStart, Bool.and_eq_true] at h1
          have hcTrue : c = true := h2 h1.1
          subst hcTrue
          simp only [vapiTrace, okTraceWith, Bool.or_true, Bool.true_or, Bool.true_and]
          exact ih (vapiStep VapiEvent.speechStart s) b true h1.2 (fun _ => rfl)
            (fun _ => rfl)
      | speechEnd =>
          simp only [speechAfterCallStart, Bool.and_eq_true] at h1
          have hcTrue : c = true := h2 h1.1
          subst hcTrue
          simp only [vapiTrace, okTraceWith, Bool.or_true, Bool.true_or, Bool.true_and]
          exact ih (vapiStep VapiEvent.speechEnd s) b true h1.2 (fun _ => rfl)
            (fun _ => rfl)
      | message m =>
          simp only [speechAfterCallStart] at h1
          simp only [vapiTrace, okTraceWith]
          have hst : (vapiStep (VapiEvent.message m) s).status = s.status := rfl
          rw [hst]
          cases hact : activityStatuses.contains s.status with
          | false =>
              simp only [Bool.not_false, Bool.true_or, Bool.true_and]
              apply ih (vapiStep (VapiEvent.message m) s) b (c || (s.status == "connected")) h1
              · intro hb
                rw [h2 hb]
                rfl
              · intro hact2
                rw [hst, hact] at hact2
                exact absurd hact2 (by decide)
          | true =>
              have hcTrue : c = true := h3 hact
              subst hcTrue
              simp only [hact, Bool.not_true, Bool.false_or, Bool.true_or, Bool.true_and]
              apply ih (vapiStep (VapiEvent.message m) s) b true h1 (fun _ => rfl)
                (fun _ => rfl)
      | errorEvent msg =>
          simp only [speechAfterCallStart] at h1
          simp only [vapiTrace, okTraceWith]
          have hst : (vapiStep (VapiEvent.errorEvent msg) s).status = s.status :=
            vapiStep_errorEvent_status msg s
          rw [hst]
          cases hact : activityStatuses.contains s.status with
          | false =>
              simp only [Bool.not_false, Bool.true_or, Bool.true_and]
              apply ih (vapiStep (VapiEvent.errorEvent msg) s) b (c || (s.status == "connected")) h1
              · intro hb
                rw [h2 hb]
                rfl
              · intro hact2
                rw [hst, hact] at hact2
                exact absurd hact2 (by decide)
          | true =>
              have hcTrue : c = true := h3 hact
              subst hcTrue
              simp only [hact, Bool.not_true, Bool.false_or, Bool.true_or, Bool.true_and]
              apply ih (vapiStep (VapiEvent.errorEvent msg) s) b true h1 (fun _ => rfl)
                (fun _ => rfl)

/-- The Vogent adapter never stores an activity status, so every Vogent
trace trivially satisfies the connected-before-activity discipline. -/
theorem vogentTrace_no_activity (events : List VogentStatus) :
    ∀ (s : OmniChatState) (c : Bool),
      okTraceWith "connected" c (vogentTrace s events) = true := by
  induction events with
  | nil =>
      intro s c
      rfl
  | cons v rest ih =>
      intro s c
      simp only [vogentTrace, okTraceWith]
      cases v with
      | connecting =>
          have hst : (vogentStatusStep VogentStatus.connecting.raw s).status = "connecting" := rfl
          rw [hst]
          simp only [show activityStatuses.contains "connecting" = false by decide,
            Bool.not_false, Bool.true_or, Bool.true_and]
          exact ih _ _
      | connected =>
          have hst : (vogentStatusStep VogentStatus.connected.raw s).status = "connected" := rfl
          rw [hst]
          simp only [show activityStatuses.contains "connected" = false by decide,
            Bool.not_false, Bool.true_or, Bool.true_and]
          exact ih _ _
      | ended =>
          have hst : (vogentStatusStep VogentStatus.ended.raw s).status = "ended" := rfl
          rw [hst]
          simp only [show activityStatuses.contains "ended" = false by decide,
            Bool.not_false, Bool.true_or, Bool.true_and]
          exact ih _ _
      | error =>
          have hst : (vogentStatusStep VogentStatus.error.raw s).status = "error" := rfl
          rw [hst]
          simp only [show activityStatuses.contains "error" = false by decide,
            Bool.not_false, Bool.true_or, Bool.true_and]
          exact ih _ _

/-- Master lemma for the Ultravox trace with `"idle"` in the role of the
connected-ready marker: if every activity status event is preceded by an
idle event (flag `b`) and the marker-seen flag `c` dominates `b`, the trace
observes `idle` before any activity status. -/
theorem ultravoxTrace_idle_first (events : List UltravoxSessionStatus) :
    ∀ (s : OmniChatState) (b c : Bool),
      idleBeforeActivity b events = true →
      (b = true → c = true) →
      okTraceWith "idle" c (ultravoxTrace s events) = true := by
  induction events with
  | nil =>
      intro s b c _ _
      rfl
  | cons u rest ih =>
      intro s b c h1 h2
      simp only [ultravoxTrace, okTraceWith]
      cases u with
      | disconnected =>
          simp only [idleBeforeActivity] at h1
          have hst : (ultravoxStatusStep UltravoxSessionStatus.disconnected s).status
              = "disconnected" := rfl
          rw [hst]
          simp only [show activityStatuses.contains "disconnected" = false by decide,
            show ("disconnected" == "idle") = false by decide,
            Bool.not_false, Bool.true_or, Bool.or_false, Bool.true_and]
          exact ih _ b c h1 h2
      | disconnecting =>
          simp only [idleBeforeActivity] at h1
          have hst : (ultravoxStatusStep UltravoxSessionStatus.disconnecting s).status
              = "disconnecting" := rfl
          rw [hst]
          simp only [show activityStatuses.contains "disconnecting" = false by decide,
            show ("disconnecting" == "idle") = false by decide,
            Bool.not_false, Bool.true_or, Bool.or_false, Bool.true_and]
          exact ih _ b c h1 h2
      | connecting =>
          simp only [idleBeforeActivity] at h1
          have hst : (ultravoxStatusStep UltravoxSessionStatus.connecting s).status
              = "connecting" := rfl
          rw [hst]
          simp only [show activityStatuses.contains "connecting" = false by decide,
            show ("connecting" == "idle") = false by decide,
            Bool.not_false, Bool.true_or, Bool.or_false, Bool.true_and]
          exact ih _ b c h1 h2
      | idle =>
          simp only [idleBeforeActivity] at h1
          have hst : (ultravoxStatusStep UltravoxSessionStatus.idle s).status = "idle" := rfl
          rw [hst]
          simp only [show activityStatuses.contains "idle" = false by decide,
            show ("idle" == "idle") = true by decide,
            Bool.not_false, Bool.true_or, Bool.or_true, Bool.true_and]
          exact ih _ true true h1 (fun _ => rfl)
      | listening =>
          simp only [idleBeforeActivity, Bool.and_eq_true] at h1
          have hcTrue : c = true := h2 h1.1
          subst hcTrue
          simp only [Bool.or_true, Bool.true_or, Bool.true_and]
          exact ih _ b true h1.2 (fun _ => rfl)
      | thinking =>
          simp only [idleBeforeActivity, Bool.and_eq_true] at h1
          have hcTrue : c = true := h2 h1.1
          subst hcTrue
          simp only [Bool.or_true, Bool.true_or, Bool.true_and]
          exact ih _ b true h1.2 (fun _ => rfl)
      | speaking =>
          simp only [idleBeforeActivity, Bool.and_eq_true] at h1
          have hcTrue : c = true := h2 h1.1
          subst hcTrue
          simp only [Bool.or_true, Bool.true_or, Bool.true_and]
          exact ih _ b true h1.2 (fun _ => rfl)

/-- C9 counterexample: after a successful Ultravox start, the well-behaved
session status sequence idle-then-listening produces the canonical status
trace `["idle", "listening"]` — the activity status `"listening"` is
observed while the canonical value `"connected"` is never stored (the
adapter stores the raw `"idle"` for the connected-ready state), so the
claimed connected-before-activity ordering fails. -/
theorem c9_counterexample :
    ultravoxTrace
        { initialState "ultravox" with isConnected := true, callId := some "c1" }
        [UltravoxSessionStatus.idle, UltravoxSessionStatus.listening]
      = ["idle", "listening"]
    ∧ okTraceWith "connected" false
        (ultravoxTrace
          { initialState "ultravox" with isConnected := true, callId := some "c1" }
          [UltravoxSessionStatus.idle, UltravoxSessionStatus.listening]) = false := by
  constructor
  · rfl
  · rfl

/-- C9 amended: the adapters do not themselves enforce the ordering, but it
holds under the providers' event disciplines — for Vapi, in every post-start
event sequence whose speech events come after `call-start`, the status
`"connected"` is observed before any activity status; the Vogent adapter
never stores an activity status at all; and for Ultravox, whose
connected-ready state is stored as `"idle"` rather than `"connected"`, the
status `"idle"` is observed before any activity status in every sequence
where the session reports idle before speech activity. -/
theorem c9_amended_connected_before_activity :
    (∀ (s : OmniChatState) (events : List VapiEvent),
        speechAfterCallStart false events = true →
        activityStatuses.contains s.status = false →
        okTraceWith "connected" false (vapiTrace s events) = true)
    ∧ (∀ (s : OmniChatState) (events : List VogentStatus),
        okTraceWith "connected" false (vogentTrace s events) = true)
    ∧ (∀ (s : OmniChatState) (events : List UltravoxSessionStatus),
        idleBeforeActivity false events = true →
        okTraceWith "idle" false (ultravoxTrace s events) = true) := by
  refine ⟨fun s events h1 h2 => ?_, fun s events => vogentTrace_no_activity events s false,
    fun s events h1 => ?_⟩
  · exact vapiTrace_connected_first events s false false h1 (fun h => h)
      (fun ha => by rw [h2] at ha; exact ha)
  · exact ultravoxTrace_idle_first events s false false h1 (fun h => h)

/-- Closed instance of `c9_amended_connected_before_activity` on concrete
well-ordered event sequences for Vapi and Ultravox. -/
theorem c9_witness :
    okTraceWith "connected" false
      (vapiTrace (initialState "vapi")
        [VapiEvent.callStart, VapiEvent.speechStart, VapiEvent.speechEnd]) = true
    ∧ okTraceWith "idle" false
        (ultravoxTrace (initialState "ultravox")
          [UltravoxSessionStatus.connecting, UltravoxSessionStatus.idle,
            UltravoxSessionStatus.listening]) = true :=
  ⟨c9_amended_connected_before_activity.1 (initialState "vapi")
      [VapiEvent.callStart, VapiEvent.speechStart, VapiEvent.speechEnd]
      (by decide) (by decide),
    c9_amended_connected_before_activity.2.2 (initialState "ultravox")
      [UltravoxSessionStatus.connecting, UltravoxSessionStatus.idle,
        UltravoxSessionStatus.listening] (by decide)⟩

end OmniVoice
